import Mathlib

/-!
Verification of the mini monetary-policy committee simulator (etapa 1).

The Python source is shallowly embedded over the real numbers: float
arithmetic becomes exact real arithmetic, `x ** y` becomes `Real.rpow`,
lists stand for the iterated loops, and the only fallible operation in
the core (Python's division by zero inside `annual_to_daily`) is made
explicit with `Except`.
-/

namespace MiniComite

/-! ## Embedding of src/config.py (constants) -/

/-- config.py: `ANOS_SIMULACAO = 3`. -/
def ANOS_SIMULACAO : ℕ := 3

/-- config.py: `MESES_POR_ANO = 12`. -/
def MESES_POR_ANO : ℕ := 12

/-- config.py: `DIAS_UTEIS_POR_ANO = 252`. -/
def DIAS_UTEIS_POR_ANO : ℕ := 252

/-- config.py: `MESES_SIMULACAO = ANOS_SIMULACAO * MESES_POR_ANO`. -/
def MESES_SIMULACAO : ℕ := ANOS_SIMULACAO * MESES_POR_ANO

/-- config.py: `TR_MENSAL_FIXA = 0.0017`. -/
def TR_MENSAL_FIXA : ℝ := 0.0017

/-- Modelled from the spec: `SPREAD_CDI_SELIC` is imported by
products.py from config.py, but config.py as present in the repository
does not define it.  The spec ("a fixed spread is subtracted", "a rate
derived from the policy rate via a small fixed spread") together with
the products.py comments ("CDI geralmente fica 0,1 p.p. abaixo da
Selic", "`# -0,1 p.p.`") fix its value at minus 0.1 percentage point. -/
def SPREAD_CDI_SELIC : ℝ := -0.001

/-! ## Embedding of src/rates.py -/

/-- rates.py `annual_to_monthly`: `(1.0 + i_a) ** (1.0 / 12.0) - 1.0`. -/
noncomputable def annual_to_monthly (i_a : ℝ) : ℝ :=
  (1 + i_a) ^ ((1 : ℝ) / 12) - 1

/-- rates.py `annual_to_daily`, value branch: what
`(1.0 + i_a) ** (1.0 / float(dias_uteis_ano)) - 1.0` returns once the
division `1.0 / float(dias_uteis_ano)` has succeeded. -/
noncomputable def annual_to_daily_val (i_a : ℝ) (dias_uteis_ano : ℤ) : ℝ :=
  (1 + i_a) ^ ((1 : ℝ) / (dias_uteis_ano : ℝ)) - 1

/-- rates.py `monthly_to_annual`: `(1.0 + i_m) ** 12.0 - 1.0`. -/
noncomputable def monthly_to_annual (i_m : ℝ) : ℝ :=
  (1 + i_m) ^ (12 : ℝ) - 1

/-- rates.py `daily_to_annual`: `(1.0 + i_d) ** float(dias_uteis_ano) - 1.0`. -/
noncomputable def daily_to_annual (i_d : ℝ) (dias_uteis_ano : ℤ) : ℝ :=
  (1 + i_d) ^ ((dias_uteis_ano : ℝ)) - 1

/-- rates.py `compose_ipca_plus`: `(1.0 + ipca) * (1.0 + real) - 1.0`. -/
def compose_ipca_plus (ipca «real» : ℝ) : ℝ :=
  (1 + ipca) * (1 + «real») - 1

/-- rates.py `equivalent_periodic_fee`:
`(1.0 + annual_fee) ** (1.0 / float(periods_per_year)) - 1.0`.
The program only calls it with `periods_per_year` equal to 12 or 252;
at `periods_per_year = 0` Python would raise `ZeroDivisionError`
(in Lean `1 / 0 = 0` makes this total), so the simulator theorems
below carry the hypothesis `0 < periods_per_year`. -/
noncomputable def equivalent_periodic_fee (annual_fee : ℝ) (periods_per_year : ℕ) : ℝ :=
  (1 + annual_fee) ^ ((1 : ℝ) / (periods_per_year : ℝ)) - 1

/-- rates.py `chain_rates`: `acc = 1.0; for r in rates: acc *= (1.0 + r); return acc - 1.0`. -/
def chain_rates (rates : List ℝ) : ℝ :=
  (rates.foldl (fun acc r => acc * (1 + r)) 1) - 1

/-! ## Embedding of src/products.py -/

/-- products.py `SimulationParams` (frozen dataclass). -/
structure SimulationParams where
  initial : ℝ
  annual_custody : ℝ
  ir_rate : ℝ
  periods_per_year : ℕ

/-- One row of the `period_list` built inside `simulate_product`. -/
structure PeriodRecord where
  periodo : ℕ
  taxa : ℝ
  saldo_bruto : ℝ
  custodia : ℝ
  saldo_pos_custodia : ℝ

/-- The dict returned by `simulate_product`. -/
structure ProductResult where
  produto : String
  timeline : List PeriodRecord
  vf_bruto : ℝ
  ir_final : ℝ
  vf_liquido : ℝ

/-- The `for i, rate in enumerate(rates, 1)` loop of `simulate_product`:
given the custody rate per period, the remaining rates, the next 1-based
index and the two running balances (`saldo_sem_custodia`,
`saldo_com_custodia`), returns the generated records and both final
balances. -/
def simulate_loop (custody_per_period : ℝ) (apply_custody : Bool) :
    List ℝ → ℕ → ℝ → ℝ → List PeriodRecord × ℝ × ℝ
  | [], _, ssc, scc => ([], ssc, scc)
  | rate :: rest, i, ssc, scc =>
      let ssc1 := ssc * (1 + rate)
      let scc1 := scc * (1 + rate)
      let custodia_periodo := if apply_custody then scc1 * custody_per_period else 0
      let scc2 := scc1 - custodia_periodo
      let tail := simulate_loop custody_per_period apply_custody rest (i + 1) ssc1 scc2
      (⟨i, rate, ssc1, custodia_periodo, scc2⟩ :: tail.1, tail.2.1, tail.2.2)

/-- products.py `simulate_product`. -/
noncomputable def simulate_product (rates : List ℝ) (params : SimulationParams)
    (produto_nome : String) (apply_custody : Bool) (ir_exempt : Bool) : ProductResult :=
  let custody_per_period :=
    if apply_custody then equivalent_periodic_fee params.annual_custody params.periods_per_year
    else 0
  let res := simulate_loop custody_per_period apply_custody rates 1 params.initial params.initial
  let vf_bruto := res.2.1
  let ir_final := if ir_exempt then 0 else max 0 (vf_bruto - params.initial) * params.ir_rate
  let vf_liquido := res.2.2 - ir_final
  ⟨produto_nome, res.1, vf_bruto, ir_final, vf_liquido⟩

/-- The final fee-bearing balance (`saldo_com_custodia` after the loop),
written directly as a fold over the rate series. -/
noncomputable def final_with_fee (rates : List ℝ) (params : SimulationParams)
    (apply_custody : Bool) : ℝ :=
  let custody_per_period :=
    if apply_custody then equivalent_periodic_fee params.annual_custody params.periods_per_year
    else 0
  rates.foldl
    (fun s r =>
      let s1 := s * (1 + r)
      s1 - (if apply_custody then s1 * custody_per_period else 0))
    params.initial

/-- The final fee-free balance (`saldo_sem_custodia` after the loop),
written directly as a fold over the rate series. -/
def gross_no_fee (rates : List ℝ) (initial : ℝ) : ℝ :=
  rates.foldl (fun s r => s * (1 + r)) initial

/-- products.py `calculate_cdi_from_selic`: per period, convert the
periodic policy rate to annual, add `SPREAD_CDI_SELIC`, convert back to
a periodic rate, at the granularity selected by
`params.periods_per_year`. -/
noncomputable def calculate_cdi_from_selic (selic_rates : List ℝ)
    (params : SimulationParams) : List ℝ :=
  if params.periods_per_year = DIAS_UTEIS_POR_ANO then
    selic_rates.map fun s =>
      annual_to_daily_val (daily_to_annual s 252 + SPREAD_CDI_SELIC) 252
  else
    selic_rates.map fun s =>
      annual_to_monthly (monthly_to_annual s + SPREAD_CDI_SELIC)

/-- products.py `get_poupanca_base_rate`. -/
noncomputable def get_poupanca_base_rate (selic_aa : ℝ) : ℝ :=
  if selic_aa > 0.085 then 0.005 else annual_to_monthly (0.70 * selic_aa)

/-- `rates.extend(...)` iterated over `range(k)`: concatenation of the
blocks produced for `mes = 0, 1, ..., k-1`, in order. -/
def concat_blocks (f : ℕ → List ℝ) : ℕ → List ℝ
  | 0 => []
  | k + 1 => concat_blocks f k ++ f k

/-- The daily branch of products.py `simulate_poupanca`: for each whole
21-business-day month, 20 days at rate `0.0` followed by the anniversary
day carrying `get_poupanca_base_rate(selic_list[mes*21]) + TR_MENSAL_FIXA`;
the result is padded with zeros and cut to the exact input length
(`rates = (rates + [0.0] * len(selic_list))[:len(selic_list)]`). -/
noncomputable def poupanca_daily_rates (selic_list : List ℝ) : List ℝ :=
  let dias_por_mes : ℕ := 21
  let L := selic_list.length
  let loop := concat_blocks
    (fun mes =>
      List.replicate (dias_por_mes - 1) 0 ++
        [get_poupanca_base_rate (selic_list.getD (mes * dias_por_mes) 0) + TR_MENSAL_FIXA])
    (L / dias_por_mes)
  (loop ++ List.replicate L 0).take L

/-! ## Embedding of src/config.py (CenarioEconomico) and src/scenarios.py -/

/-- config.py `CenarioEconomico` (frozen dataclass, fields only). -/
structure CenarioEconomico where
  nome : String
  descricao : String
  selic_por_ano : List ℝ
  ipca_por_ano : List ℝ

/-- Construction of a `CenarioEconomico` including its `__post_init__`
validation: a `ValueError` is raised when either trajectory does not
have exactly `ANOS_SIMULACAO` entries. -/
def mk_cenario_economico (nome descricao : String) (selic ipca : List ℝ) :
    Except String CenarioEconomico :=
  if selic.length ≠ ANOS_SIMULACAO then
    Except.error ("selic_por_ano deve ter " ++ toString ANOS_SIMULACAO ++
      " elementos, recebeu " ++ toString selic.length)
  else if ipca.length ≠ ANOS_SIMULACAO then
    Except.error ("ipca_por_ano deve ter " ++ toString ANOS_SIMULACAO ++
      " elementos, recebeu " ++ toString ipca.length)
  else Except.ok ⟨nome, descricao, selic, ipca⟩

/-- scenarios.py `ScenarioDefinition` (frozen dataclass): note that it
has no `__post_init__`, so construction never raises. -/
structure ScenarioDefinition where
  name : String
  selic_by_year : List ℝ
  ipca_by_year : List ℝ
  start_year : ℤ

/-- scenarios.py `_expand_annual_sequence_to_months`: raises `ValueError`
when the annual sequence does not have exactly `ANOS_SIMULACAO` entries,
otherwise repeats each annual value `months // ANOS_SIMULACAO` times and
truncates to `months` entries. -/
def expand_annual_sequence_to_months (annual_sequence : List ℝ) (months : ℕ) :
    Except String (List ℝ) :=
  if annual_sequence.length ≠ ANOS_SIMULACAO then
    Except.error ("annual_sequence deve conter exatamente " ++
      toString ANOS_SIMULACAO ++ " taxas anuais")
  else
    Except.ok
      ((concat_blocks
          (fun y => List.replicate (months / ANOS_SIMULACAO) (annual_sequence.getD y 0))
          annual_sequence.length).take months)

/-! ## Embedding of the summary sort in src/simulate.py -/

/-- One row of the `summary_data` built by `_simulate_for_scenario` /
`_simulate_for_scenario_daily`: the product name and its final net
value.  Float values are dyadic rationals, so the key is modelled in
`ℚ` to keep comparisons decidable; only the name and the sort key
matter for the ordering claim. -/
structure SummaryRow where
  produto : String
  vf_liquido : ℚ
deriving DecidableEq, Repr

instance decRowLe : DecidableRel (fun a b : SummaryRow => a.vf_liquido ≤ b.vf_liquido) :=
  fun a b => inferInstanceAs (Decidable (a.vf_liquido ≤ b.vf_liquido))

/-- simulate.py: `pd.DataFrame(results).sort_values("vf_liquido", ascending=False)`.
For `ascending=False`, `pandas.core.sorting.nargsort` reverses the
values and their indices BEFORE running the ascending argsort, and
reverses the resulting indexer AFTER it; for the six-row frames built
here the underlying numpy introsort runs its insertion-sort branch,
which is stable, and the double reversal turns that into a stable
DESCENDING sort.  The model therefore is: reverse the rows, stable
ascending insertion sort by `vf_liquido`, reverse the result. -/
def sort_summary (rows : List SummaryRow) : List SummaryRow :=
  (List.insertionSort (fun a b => a.vf_liquido ≤ b.vf_liquido) rows.reverse).reverse

/-! ## Helper lemmas -/

lemma foldl_mul_replicate (n : ℕ) (x a : ℝ) :
    (List.replicate n x).foldl (fun acc r => acc * (1 + r)) a = a * (1 + x) ^ n := by
  induction n generalizing a with
  | zero => simp
  | succ k ih =>
      rw [List.replicate_succ, List.foldl_cons, ih, pow_succ]
      ring

lemma lt_rpow_twelfth (a b : ℝ) (ha : 0 ≤ a) (h : a ^ (12 : ℕ) < b) :
    a < b ^ ((1 : ℝ) / 12) := by
  have h0 : (0 : ℝ) ≤ a ^ (12 : ℕ) := pow_nonneg ha _
  have h2 := Real.rpow_lt_rpow h0 h (by norm_num : (0 : ℝ) < 1 / 12)
  rwa [← Real.rpow_natCast a 12, ← Real.rpow_mul ha,
    show ((12 : ℕ) : ℝ) * (1 / 12) = 1 by norm_num, Real.rpow_one] at h2

lemma rpow_twelfth_lt (a b : ℝ) (ha : 0 ≤ a) (hb : 0 ≤ b) (h : b < a ^ (12 : ℕ)) :
    b ^ ((1 : ℝ) / 12) < a := by
  have h2 := Real.rpow_lt_rpow hb h (by norm_num : (0 : ℝ) < 1 / 12)
  rwa [← Real.rpow_natCast a 12, ← Real.rpow_mul ha,
    show ((12 : ℕ) : ℝ) * (1 / 12) = 1 by norm_num, Real.rpow_one] at h2

/-! ## C3: tiered/administered (poupança) base rate -/

/-- Claim C3, counterexample: at annual policy rate 0.05 the code's base
rate `annual_to_monthly (0.70 * 0.05)` differs from the claimed value
`0.70 * annual_to_monthly 0.05` — the fraction is applied to the annual
rate before conversion, not to the converted periodic rate. -/
theorem C3_counterexample :
    get_poupanca_base_rate 0.05 ≠ 0.7 * annual_to_monthly 0.05 := by
  have hbase : get_poupanca_base_rate 0.05 = (1.035 : ℝ) ^ ((1 : ℝ) / 12) - 1 := by
    rw [get_poupanca_base_rate, if_neg (by norm_num)]
    norm_num [annual_to_monthly]
  have hmon : annual_to_monthly 0.05 = (1.05 : ℝ) ^ ((1 : ℝ) / 12) - 1 := by
    norm_num [annual_to_monthly]
  have hlo : (1.00287 : ℝ) < (1.035 : ℝ) ^ ((1 : ℝ) / 12) :=
    lt_rpow_twelfth _ _ (by norm_num) (by norm_num)
  have hhi : (1.05 : ℝ) ^ ((1 : ℝ) / 12) < 1.004075 :=
    rpow_twelfth_lt _ _ (by norm_num) (by norm_num) (by norm_num)
  intro heq
  rw [hbase, hmon] at heq
  nlinarith [hlo, hhi]

/-- Claim C3, amended: above the 0.085 threshold the base rate is the
fixed administered monthly rate 0.005; below it, the base rate is
`annual_to_monthly (0.70 * selic)` — the 0.70 fraction is applied in the
annual domain and then converted, not the other way round. -/
theorem C3_base_rate_values :
    get_poupanca_base_rate 0.09 = 0.005 ∧
      get_poupanca_base_rate 0.05 = annual_to_monthly (0.70 * 0.05) := by
  constructor
  · rw [get_poupanca_base_rate, if_pos (by norm_num)]
  · rw [get_poupanca_base_rate, if_neg (by norm_num)]

/-! ## C4: monthly round-trip of a constant annual rate -/

/-- Claim C4: for every annual rate r > −1, geometrically chaining twelve
copies of `annual_to_monthly r` with `chain_rates` reproduces r exactly
over the reals. -/
theorem C4_monthly_roundtrip (r : ℝ) (h : -1 < r) :
    chain_rates (List.replicate 12 (annual_to_monthly r)) = r := by
  have h0 : (0 : ℝ) ≤ 1 + r := by linarith
  have h1 : 1 + annual_to_monthly r = (1 + r) ^ ((1 : ℝ) / 12) := by
    rw [annual_to_monthly]
    ring
  rw [chain_rates, foldl_mul_replicate, h1, one_mul,
    ← Real.rpow_natCast ((1 + r) ^ ((1 : ℝ) / 12)) 12, ← Real.rpow_mul h0,
    show (1 : ℝ) / 12 * ((12 : ℕ) : ℝ) = 1 by norm_num, Real.rpow_one]
  ring

/-- Witness for C4 at the concrete annual rate r = 1. -/
theorem C4_monthly_roundtrip_witness :
    (-1 : ℝ) < 1 ∧ chain_rates (List.replicate 12 (annual_to_monthly 1)) = 1 :=
  ⟨by norm_num, C4_monthly_roundtrip 1 (by norm_num)⟩

/-! ## C5: validation of the annual-to-periodic conversion -/

lemma simulate_loop_bruto (cpp : ℝ) (ac : Bool) (rates : List ℝ) :
    ∀ (i : ℕ) (a b : ℝ), (simulate_loop cpp ac rates i a b).2.1 = gross_no_fee rates a := by
  induction rates with
  | nil => intro i a b; rfl
  | cons rate rest ih =>
      intro i a b
      simp only [simulate_loop, gross_no_fee, List.foldl_cons]
      exact ih (i + 1) _ _

lemma simulate_loop_fee (cpp : ℝ) (ac : Bool) (rates : List ℝ) :
    ∀ (i : ℕ) (a b : ℝ), (simulate_loop cpp ac rates i a b).2.2 =
      rates.foldl
        (fun s r => s * (1 + r) - (if ac then s * (1 + r) * cpp else 0)) b := by
  induction rates with
  | nil => intro i a b; rfl
  | cons rate rest ih =>
      intro i a b
      simp only [simulate_loop, List.foldl_cons]
      exact ih (i + 1) _ _

lemma simulate_loop_map_periodo (cpp : ℝ) (ac : Bool) (rates : List ℝ) :
    ∀ (i : ℕ) (a b : ℝ), ((simulate_loop cpp ac rates i a b).1).map PeriodRecord.periodo =
      List.range' i rates.length := by
  induction rates with
  | nil => intro i a b; rfl
  | cons rate rest ih =>
      intro i a b
      simp only [simulate_loop, List.map_cons, List.length_cons, List.range'_succ]
      exact List.cons_eq_cons.2 ⟨rfl, ih (i + 1) _ _⟩

lemma simulate_loop_map_taxa (cpp : ℝ) (ac : Bool) (rates : List ℝ) :
    ∀ (i : ℕ) (a b : ℝ), ((simulate_loop cpp ac rates i a b).1).map PeriodRecord.taxa = rates := by
  induction rates with
  | nil => intro i a b; rfl
  | cons rate rest ih =>
      intro i a b
      simp only [simulate_loop, List.map_cons]
      exact List.cons_eq_cons.2 ⟨rfl, ih (i + 1) _ _⟩

lemma simulate_loop_no_custody (cpp : ℝ) (rates : List ℝ) :
    ∀ (i : ℕ) (a b : ℝ), a = b →
      ∀ rec ∈ (simulate_loop cpp false rates i a b).1,
        rec.custodia = 0 ∧ rec.saldo_pos_custodia = rec.saldo_bruto := by
  induction rates with
  | nil => intro i a b _ rec hrec; simp [simulate_loop] at hrec
  | cons rate rest ih =>
      intro i a b hab rec hrec
      simp only [simulate_loop, Bool.false_eq_true, if_false, List.mem_cons] at hrec
      rcases hrec with h | h
      · subst h
        refine ⟨rfl, ?_⟩
        simp only [hab]
        ring
      · exact ih (i + 1) _ _ (by rw [hab]; ring) rec h

/-- `simulate_product` expressed through the direct folds: the structure
of the returned record. -/
lemma simulate_product_eq (rates : List ℝ) (params : SimulationParams)
    (nome : String) (ac ie : Bool) :
    simulate_product rates params nome ac ie =
      ⟨nome,
        (simulate_loop
          (if ac then equivalent_periodic_fee params.annual_custody params.periods_per_year else 0)
          ac rates 1 params.initial params.initial).1,
        gross_no_fee rates params.initial,
        (if ie then 0 else
          max 0 (gross_no_fee rates params.initial - params.initial) * params.ir_rate),
        final_with_fee rates params ac -
          (if ie then 0 else
            max 0 (gross_no_fee rates params.initial - params.initial) * params.ir_rate)⟩ := by
  rw [simulate_product, final_with_fee]
  simp only [simulate_loop_bruto, simulate_loop_fee]

/-! ## C1: final tax and net value -/

/-- Claim C1: in every simulation run, a tax-exempt product pays tax 0;
otherwise the tax is `max 0 (grossNoFee − initial) * ir_rate` where
`grossNoFee` is the fee-free compounded balance; a loss yields tax 0;
the tax is never negative (for a nonnegative configured rate); and the
net value is the final fee-bearing balance minus the tax. -/
theorem C1_final_tax_and_net (rates : List ℝ) (params : SimulationParams)
    (nome : String) (ac ie : Bool) (_hp : 0 < params.periods_per_year)
    (hr : 0 ≤ params.ir_rate) :
    (ie = true → (simulate_product rates params nome ac ie).ir_final = 0) ∧
    (ie = false → (simulate_product rates params nome ac ie).ir_final =
      max 0 ((simulate_product rates params nome ac ie).vf_bruto - params.initial) *
        params.ir_rate) ∧
    (simulate_product rates params nome ac ie).vf_bruto = gross_no_fee rates params.initial ∧
    ((simulate_product rates params nome ac ie).vf_bruto < params.initial →
      (simulate_product rates params nome ac ie).ir_final = 0) ∧
    0 ≤ (simulate_product rates params nome ac ie).ir_final ∧
    (simulate_product rates params nome ac ie).vf_liquido =
      final_with_fee rates params ac - (simulate_product rates params nome ac ie).ir_final := by
  rw [simulate_product_eq]
  refine ⟨?_, ?_, rfl, ?_, ?_, rfl⟩
  · intro h; rw [h]; rfl
  · intro h; rw [h]; rfl
  · intro hloss
    cases ie with
    | true => rfl
    | false =>
        have hmax : max 0 (gross_no_fee rates params.initial - params.initial) = 0 :=
          max_eq_left (by simpa using hloss.le)
        simp [hmax]
  · cases ie with
    | true => simp
    | false =>
        simpa using mul_nonneg (le_max_left 0 _) hr

/-- Witness for C1 at one period of rate 1 (100%), initial capital 100,
no custody, flat 15% tax on the gain of 100. -/
theorem C1_final_tax_and_net_witness :
    0 < (⟨100, 0, 0.15, 12⟩ : SimulationParams).periods_per_year ∧
    (0 : ℝ) ≤ (⟨100, 0, 0.15, 12⟩ : SimulationParams).ir_rate ∧
    ((false = true →
        (simulate_product [1] ⟨100, 0, 0.15, 12⟩ "Produto" false false).ir_final = 0) ∧
      (false = false →
        (simulate_product [1] ⟨100, 0, 0.15, 12⟩ "Produto" false false).ir_final =
          max 0 ((simulate_product [1] ⟨100, 0, 0.15, 12⟩ "Produto" false false).vf_bruto -
            (⟨100, 0, 0.15, 12⟩ : SimulationParams).initial) *
            (⟨100, 0, 0.15, 12⟩ : SimulationParams).ir_rate) ∧
      (simulate_product [1] ⟨100, 0, 0.15, 12⟩ "Produto" false false).vf_bruto =
        gross_no_fee [1] (⟨100, 0, 0.15, 12⟩ : SimulationParams).initial ∧
      ((simulate_product [1] ⟨100, 0, 0.15, 12⟩ "Produto" false false).vf_bruto <
          (⟨100, 0, 0.15, 12⟩ : SimulationParams).initial →
        (simulate_product [1] ⟨100, 0, 0.15, 12⟩ "Produto" false false).ir_final = 0) ∧
      0 ≤ (simulate_product [1] ⟨100, 0, 0.15, 12⟩ "Produto" false false).ir_final ∧
      (simulate_product [1] ⟨100, 0, 0.15, 12⟩ "Produto" false false).vf_liquido =
        final_with_fee [1] ⟨100, 0, 0.15, 12⟩ false -
          (simulate_product [1] ⟨100, 0, 0.15, 12⟩ "Produto" false false).ir_final) :=
  ⟨by norm_num, by norm_num,
    C1_final_tax_and_net [1] ⟨100, 0, 0.15, 12⟩ "Produto" false false
      (by norm_num) (by norm_num)⟩

/-! ## C2: the concrete three-period scenario -/

/-- Claim C2, counterexample: with initial 100000, three periods at rate
0.01, no custody and flat rate 0.15, the simulator's exact outputs are
103030.1 / 454.515 / 102575.585, each farther than 0.01 from the values
103030.01 / 454.5015 / 102575.5085 asserted by the claim — far outside
any floating tolerance. -/
theorem C2_counterexample :
    (simulate_product [0.01, 0.01, 0.01] ⟨100000, 0.002, 0.15, 12⟩ "Produto" false
        false).vf_bruto = 103030.1 ∧
    (103030.01 + 1 / 100 : ℝ) < 103030.1 ∧
    (simulate_product [0.01, 0.01, 0.01] ⟨100000, 0.002, 0.15, 12⟩ "Produto" false
        false).ir_final = 454.515 ∧
    (454.5015 + 1 / 100 : ℝ) < 454.515 ∧
    (simulate_product [0.01, 0.01, 0.01] ⟨100000, 0.002, 0.15, 12⟩ "Produto" false
        false).vf_liquido = 102575.585 ∧
    (102575.5085 + 1 / 100 : ℝ) < 102575.585 := by
  have hg : gross_no_fee [0.01, 0.01, 0.01] (100000 : ℝ) = 103030.1 := by
    norm_num [gross_no_fee, List.foldl_cons, List.foldl_nil]
  have hmax : max 0 (gross_no_fee [0.01, 0.01, 0.01] (100000 : ℝ) - 100000) = 3030.1 := by
    rw [hg]; rw [max_eq_right (by norm_num : (0 : ℝ) ≤ 103030.1 - 100000)]; norm_num
  have hf : final_with_fee [0.01, 0.01, 0.01] ⟨100000, 0.002, 0.15, 12⟩ false = 103030.1 := by
    norm_num [final_with_fee, List.foldl_cons, List.foldl_nil]
  rw [simulate_product_eq]
  refine ⟨?_, by norm_num, ?_, by norm_num, ?_, by norm_num⟩
  · simpa using hg
  · simp only [Bool.false_eq_true, if_false, hmax]
    norm_num
  · simp only [Bool.false_eq_true, if_false, hmax, hf]
    norm_num

/-- Claim C2, amended: the exact outputs of the scenario are
`grossNoFee = 100000 × 1.01³ = 103030.1`, `gain = 3030.1`,
`tax = 454.515` and `netValue = 102575.585`. -/
theorem C2_exact_values :
    (simulate_product [0.01, 0.01, 0.01] ⟨100000, 0.002, 0.15, 12⟩ "Produto" false
        false).vf_bruto = 100000 * 1.01 ^ (3 : ℕ) ∧
    100000 * (1.01 : ℝ) ^ (3 : ℕ) = 103030.1 ∧
    max 0 ((simulate_product [0.01, 0.01, 0.01] ⟨100000, 0.002, 0.15, 12⟩ "Produto" false
        false).vf_bruto - 100000) = 3030.1 ∧
    (simulate_product [0.01, 0.01, 0.01] ⟨100000, 0.002, 0.15, 12⟩ "Produto" false
        false).ir_final = 454.515 ∧
    (simulate_product [0.01, 0.01, 0.01] ⟨100000, 0.002, 0.15, 12⟩ "Produto" false
        false).vf_liquido = 102575.585 := by
  have hg : gross_no_fee [0.01, 0.01, 0.01] (100000 : ℝ) = 103030.1 := by
    norm_num [gross_no_fee, List.foldl_cons, List.foldl_nil]
  have hmax : max 0 (gross_no_fee [0.01, 0.01, 0.01] (100000 : ℝ) - 100000) = 3030.1 := by
    rw [hg]; rw [max_eq_right (by norm_num : (0 : ℝ) ≤ 103030.1 - 100000)]; norm_num
  have hf : final_with_fee [0.01, 0.01, 0.01] ⟨100000, 0.002, 0.15, 12⟩ false = 103030.1 := by
    norm_num [final_with_fee, List.foldl_cons, List.foldl_nil]
  rw [simulate_product_eq]
  refine ⟨by rw [hg]; norm_num, by norm_num, by simpa using hmax, ?_, ?_⟩
  · simp only [Bool.false_eq_true, if_false, hmax]
    norm_num
  · simp only [Bool.false_eq_true, if_false, hmax, hf]
    norm_num

/-! ## C10: timeline invariants -/

/-- Claim C10: the timeline has exactly one record per input rate, the
1-based period indices are exactly 1, 2, …, N in order, record t carries
the t-th input rate, and without custody every record has fee 0 and a
post-fee balance equal to its fee-free balance. -/
theorem C10_timeline_invariants (rates : List ℝ) (params : SimulationParams)
    (nome : String) (ac ie : Bool) (_hp : 0 < params.periods_per_year) :
    ((simulate_product rates params nome ac ie).timeline).length = rates.length ∧
    ((simulate_product rates params nome ac ie).timeline).map PeriodRecord.periodo =
      List.range' 1 rates.length ∧
    ((simulate_product rates params nome ac ie).timeline).map PeriodRecord.taxa = rates ∧
    (ac = false → ∀ rec ∈ (simulate_product rates params nome ac ie).timeline,
      rec.custodia = 0 ∧ rec.saldo_pos_custodia = rec.saldo_bruto) := by
  rw [simulate_product_eq]
  refine ⟨?_, simulate_loop_map_periodo _ _ _ _ _ _, simulate_loop_map_taxa _ _ _ _ _ _, ?_⟩
  · have h := simulate_loop_map_taxa
      (if ac then equivalent_periodic_fee params.annual_custody params.periods_per_year else 0)
      ac rates 1 params.initial params.initial
    calc ((simulate_loop _ ac rates 1 params.initial params.initial).1).length
        = (((simulate_loop _ ac rates 1 params.initial params.initial).1).map
            PeriodRecord.taxa).length := (List.length_map _ _).symm
      _ = rates.length := by rw [h]
  · intro hac
    subst hac
    exact simulate_loop_no_custody _ rates 1 _ _ rfl

/-- Witness for C10 on the two-rate series [0.02, 0.03]. -/
theorem C10_timeline_invariants_witness :
    0 < (⟨100, 0.002, 0.15, 12⟩ : SimulationParams).periods_per_year ∧
    (((simulate_product [0.02, 0.03] ⟨100, 0.002, 0.15, 12⟩ "Produto" false
          false).timeline).length = ([0.02, 0.03] : List ℝ).length ∧
      ((simulate_product [0.02, 0.03] ⟨100, 0.002, 0.15, 12⟩ "Produto" false
          false).timeline).map PeriodRecord.periodo =
        List.range' 1 ([0.02, 0.03] : List ℝ).length ∧
      ((simulate_product [0.02, 0.03] ⟨100, 0.002, 0.15, 12⟩ "Produto" false
          false).timeline).map PeriodRecord.taxa = [0.02, 0.03] ∧
      (false = false → ∀ rec ∈ (simulate_product [0.02, 0.03] ⟨100, 0.002, 0.15, 12⟩
          "Produto" false false).timeline,
        rec.custodia = 0 ∧ rec.saldo_pos_custodia = rec.saldo_bruto)) :=
  ⟨by norm_num,
    C10_timeline_invariants [0.02, 0.03] ⟨100, 0.002, 0.15, 12⟩ "Produto" false false
      (by norm_num)⟩

/-! ## C6: trajectory-length validation -/

/-- Claim C6, counterexample: a `ScenarioDefinition` whose policy-rate
trajectory has only 2 entries (≠ configured 3 years) is constructed
without any error — the dataclass has no `__post_init__` — and the
configuration error is raised only later, by
`_expand_annual_sequence_to_months`, during series expansion. -/
theorem C6_counterexample :
    (ScenarioDefinition.mk "Cenario" [0.15, 0.15] [0.04, 0.04] 2025).selic_by_year.length ≠
      ANOS_SIMULACAO ∧
    expand_annual_sequence_to_months [0.15, 0.15] MESES_SIMULACAO =
      Except.error ("annual_sequence deve conter exatamente " ++
        toString ANOS_SIMULACAO ++ " taxas anuais") := by
  have h2 : ([0.15, 0.15] : List ℝ).length ≠ ANOS_SIMULACAO := by
    simp [ANOS_SIMULACAO]
  exact ⟨h2, by rw [expand_annual_sequence_to_months, if_pos h2]⟩

/-- Claim C6, amended: `CenarioEconomico` validates both trajectory
lengths at construction (a successful construction guarantees length =
configured years), but `ScenarioDefinition` has no construction-time
check: for it the length error is raised by
`_expand_annual_sequence_to_months` at series-expansion time, which
errors exactly when the annual sequence length differs from the
configured number of simulated years. -/
theorem C6_length_validation (nome descricao : String) (selic ipca : List ℝ)
    (c : CenarioEconomico)
    (h : mk_cenario_economico nome descricao selic ipca = Except.ok c) :
    c.selic_por_ano.length = ANOS_SIMULACAO ∧
    c.ipca_por_ano.length = ANOS_SIMULACAO ∧
    (∀ seq : List ℝ, ∀ months : ℕ, seq.length ≠ ANOS_SIMULACAO →
      expand_annual_sequence_to_months seq months =
        Except.error ("annual_sequence deve conter exatamente " ++
          toString ANOS_SIMULACAO ++ " taxas anuais")) ∧
    (∀ seq : List ℝ, ∀ months : ℕ, seq.length = ANOS_SIMULACAO →
      ∃ out : List ℝ, expand_annual_sequence_to_months seq months = Except.ok out) := by
  rw [mk_cenario_economico] at h
  by_cases h1 : selic.length ≠ ANOS_SIMULACAO
  · rw [if_pos h1] at h
    exact absurd h (by simp)
  · rw [if_neg h1] at h
    by_cases h2 : ipca.length ≠ ANOS_SIMULACAO
    · rw [if_pos h2] at h
      exact absurd h (by simp)
    · rw [if_neg h2] at h
      have hc : (⟨nome, descricao, selic, ipca⟩ : CenarioEconomico) = c := by
        simpa using h
      push_neg at h1 h2
      refine ⟨by rw [← hc]; exact h1, by rw [← hc]; exact h2, ?_, ?_⟩
      · intro seq months hseq
        rw [expand_annual_sequence_to_months, if_pos hseq]
      · intro seq months hseq
        rw [expand_annual_sequence_to_months, if_neg (by simp [hseq])]
        exact ⟨_, rfl⟩

/-- Witness for C6 on a well-formed three-year scenario. -/
theorem C6_length_validation_witness :
    (⟨"Cenario", "Descricao", [0.15, 0.15, 0.15], [0.04, 0.04, 0.04]⟩ :
        CenarioEconomico).selic_por_ano.length = ANOS_SIMULACAO ∧
    (⟨"Cenario", "Descricao", [0.15, 0.15, 0.15], [0.04, 0.04, 0.04]⟩ :
        CenarioEconomico).ipca_por_ano.length = ANOS_SIMULACAO ∧
    (∀ seq : List ℝ, ∀ months : ℕ, seq.length ≠ ANOS_SIMULACAO →
      expand_annual_sequence_to_months seq months =
        Except.error ("annual_sequence deve conter exatamente " ++
          toString ANOS_SIMULACAO ++ " taxas anuais")) ∧
    (∀ seq : List ℝ, ∀ months : ℕ, seq.length = ANOS_SIMULACAO →
      ∃ out : List ℝ, expand_annual_sequence_to_months seq months = Except.ok out) :=
  C6_length_validation "Cenario" "Descricao" [0.15, 0.15, 0.15] [0.04, 0.04, 0.04] _ rfl

/-! ## C7: ordering of the scenario summary -/

instance totalRowLe : IsTotal SummaryRow (fun a b => a.vf_liquido ≤ b.vf_liquido) :=
  ⟨fun a b => le_total a.vf_liquido b.vf_liquido⟩

instance transRowLe : IsTrans SummaryRow (fun a b => a.vf_liquido ≤ b.vf_liquido) :=
  ⟨fun _ _ _ h1 h2 => le_trans h1 h2⟩

lemma filter_orderedInsert_of_eq (q : ℚ) (x : SummaryRow) (hx : x.vf_liquido = q)
    (l : List SummaryRow) :
    (List.orderedInsert (fun a b => a.vf_liquido ≤ b.vf_liquido) x l).filter
        (fun rec => decide (rec.vf_liquido = q)) =
      x :: l.filter (fun rec => decide (rec.vf_liquido = q)) := by
  induction l with
  | nil => simp [List.orderedInsert, hx]
  | cons b l ih =>
      simp only [List.orderedInsert]
      split_ifs with hle
      · simp [List.filter_cons, hx]
      · have hb : ¬(b.vf_liquido = q) := by
          intro hbq
          exact hle (le_of_eq (by rw [hx, hbq]))
        simp [List.filter_cons, hb, ih]

lemma filter_orderedInsert_of_ne (q : ℚ) (x : SummaryRow) (hx : ¬(x.vf_liquido = q))
    (l : List SummaryRow) :
    (List.orderedInsert (fun a b => a.vf_liquido ≤ b.vf_liquido) x l).filter
        (fun rec => decide (rec.vf_liquido = q)) =
      l.filter (fun rec => decide (rec.vf_liquido = q)) := by
  induction l with
  | nil => simp [List.orderedInsert, hx]
  | cons b l ih =>
      simp only [List.orderedInsert]
      split_ifs with hle
      · simp [List.filter_cons, hx]
      · simp [List.filter_cons, ih]

lemma filter_insertionSort (q : ℚ) (l : List SummaryRow) :
    (List.insertionSort (fun a b => a.vf_liquido ≤ b.vf_liquido) l).filter
        (fun rec => decide (rec.vf_liquido = q)) =
      l.filter (fun rec => decide (rec.vf_liquido = q)) := by
  induction l with
  | nil => rfl
  | cons x l ih =>
      rw [List.insertionSort]
      by_cases hx : x.vf_liquido = q
      · rw [filter_orderedInsert_of_eq q x hx, ih]
        simp [List.filter_cons, hx]
      · rw [filter_orderedInsert_of_ne q x hx, ih]
        simp [List.filter_cons, hx]

/-- Claim C7: the summary is a permutation of the product rows sorted
descending by net value, and the sort is stable in declaration order:
for every key value, the products carrying that net value appear in the
summary exactly in their original declaration order (witnessed also on
the concrete tied pair A, B, which stays as A, B); no other tie-break
is applied. -/
theorem C7_sorted_stable_descending (rows : List SummaryRow) :
    (sort_summary rows).Pairwise (fun a b => b.vf_liquido ≤ a.vf_liquido) ∧
    (sort_summary rows).Perm rows ∧
    (∀ q : ℚ, (sort_summary rows).filter (fun rec => decide (rec.vf_liquido = q)) =
      rows.filter (fun rec => decide (rec.vf_liquido = q))) ∧
    sort_summary [⟨"A", 1⟩, ⟨"B", 1⟩] = [⟨"A", 1⟩, ⟨"B", 1⟩] := by
  refine ⟨?_, ?_, ?_, by decide⟩
  · rw [sort_summary]
    exact List.pairwise_reverse.2 (List.sorted_insertionSort _ _)
  · rw [sort_summary]
    exact ((List.reverse_perm _).trans (List.perm_insertionSort _ _)).trans
      (List.reverse_perm rows)
  · intro q
    rw [sort_summary, List.filter_reverse, filter_insertionSort, List.filter_reverse,
      List.reverse_reverse]

/-! ## C8: spread arithmetic in the annual domain -/

/-- Modelled from the spec's words: "each period's policy rate is
converted to annual, a fixed spread is subtracted, and the result
converted back to periodic". -/
noncomputable def cdi_rule_spec (to_annual from_annual : ℝ → ℝ) (spread s : ℝ) : ℝ :=
  from_annual (to_annual s - spread)

/-- Claim C8: for every periodic policy-rate series, the CDB/CDI rate
derivation converts each periodic policy rate to its annual equivalent,
subtracts the fixed 0.1-percentage-point spread in the annual domain,
and converts the result back to a periodic rate, at either granularity;
the spread is never applied directly to periodic rates. -/
theorem C8_spread_in_annual_domain (selic : List ℝ) (params : SimulationParams) :
    calculate_cdi_from_selic selic params =
      if params.periods_per_year = DIAS_UTEIS_POR_ANO then
        selic.map
          (cdi_rule_spec (fun s => daily_to_annual s 252) (fun a => annual_to_daily_val a 252)
            0.001)
      else
        selic.map (cdi_rule_spec monthly_to_annual annual_to_monthly 0.001) := by
  have hspread : ∀ x : ℝ, x + SPREAD_CDI_SELIC = x - 0.001 := by
    intro x
    rw [SPREAD_CDI_SELIC]
    ring
  rw [calculate_cdi_from_selic]
  by_cases h : params.periods_per_year = DIAS_UTEIS_POR_ANO
  · rw [if_pos h, if_pos h]
    refine List.map_congr_left fun s _ => ?_
    rw [cdi_rule_spec, hspread]
  · rw [if_neg h, if_neg h]
    refine List.map_congr_left fun s _ => ?_
    rw [cdi_rule_spec, hspread]

/-! ## C9: anniversary capitalization of the daily poupança series -/

lemma concat_blocks_length (f : ℕ → List ℝ) (c : ℕ) (hf : ∀ i, (f i).length = c) :
    ∀ k, (concat_blocks f k).length = c * k := by
  intro k
  induction k with
  | zero => simp [concat_blocks]
  | succ n ih =>
      rw [concat_blocks, List.length_append, ih, hf n]
      ring

lemma concat_blocks_segment (f : ℕ → List ℝ) (c : ℕ) (hf : ∀ i, (f i).length = c) :
    ∀ k m, m < k → ((concat_blocks f k).drop (c * m)).take c = f m := by
  intro k
  induction k with
  | zero => intro m hm; exact absurd hm (Nat.not_lt_zero m)
  | succ n ih =>
      intro m hm
      have hlen : (concat_blocks f n).length = c * n := concat_blocks_length f c hf n
      rw [concat_blocks]
      rcases Nat.lt_succ_iff_lt_or_eq.1 hm with h | h
      · have hm1 : c * m ≤ (concat_blocks f n).length := by
          rw [hlen]
          exact Nat.mul_le_mul_left c h.le
        rw [List.drop_append_of_le_length hm1,
          List.take_append_of_le_length (by
            rw [List.length_drop, hlen]
            have hmul : c * (m + 1) ≤ c * n := Nat.mul_le_mul_left c (Nat.succ_le_of_lt h)
            have hstep : c * (m + 1) = c * m + c := by ring
            omega)]
        exact ih m h
      · subst h
        rw [List.drop_left' hlen, List.take_of_length_le (by rw [hf m])]

/-- Claim C9: in the daily poupança simulation, every native
21-business-day block of the produced rate series consists of 20 periods
with rate exactly 0.0 followed by the anniversary period (last day of
the block) carrying the computed monthly rate
`get_poupanca_base_rate(selic) + TR_MENSAL_FIXA`. -/
theorem C9_anniversary_blocks (selic_list : List ℝ) (m : ℕ)
    (hm : m < selic_list.length / 21) :
    ((poupanca_daily_rates selic_list).drop (21 * m)).take 21 =
      List.replicate 20 (0 : ℝ) ++
        [get_poupanca_base_rate (selic_list.getD (m * 21) 0) + TR_MENSAL_FIXA] := by
  simp only [poupanca_daily_rates]
  set L := selic_list.length with hL
  set f : ℕ → List ℝ := fun mes =>
    List.replicate (21 - 1) (0 : ℝ) ++
      [get_poupanca_base_rate (selic_list.getD (mes * 21) 0) + TR_MENSAL_FIXA] with hfdef
  have hf : ∀ i, (f i).length = 21 := by
    intro i
    simp [hfdef]
  have hlen : (concat_blocks f (L / 21)).length = 21 * (L / 21) :=
    concat_blocks_length f 21 hf _
  have htake : ((concat_blocks f (L / 21)) ++ List.replicate L (0 : ℝ)).take L =
      concat_blocks f (L / 21) ++ (List.replicate L (0 : ℝ)).take (L - 21 * (L / 21)) := by
    rw [List.take_append_eq_append_take, hlen,
      List.take_of_length_le (by rw [hlen]; exact Nat.mul_div_le L 21)]
  rw [htake,
    List.drop_append_of_le_length (by rw [hlen]; have := Nat.div_mul_le_self L 21; omega),
    List.take_append_of_le_length (by rw [List.length_drop, hlen]; omega)]
  have hseg := concat_blocks_segment f 21 hf (L / 21) m hm
  simpa [hfdef] using hseg

/-- Witness for C9 on a 21-day series at constant annual policy rate 0.05. -/
theorem C9_anniversary_blocks_witness :
    0 < (List.replicate 21 (0.05 : ℝ)).length / 21 ∧
    ((poupanca_daily_rates (List.replicate 21 (0.05 : ℝ))).drop (21 * 0)).take 21 =
      List.replicate 20 (0 : ℝ) ++
        [get_poupanca_base_rate ((List.replicate 21 (0.05 : ℝ)).getD (0 * 21) 0) +
          TR_MENSAL_FIXA] :=
  ⟨by simp, C9_anniversary_blocks (List.replicate 21 (0.05 : ℝ)) 0 (by simp)⟩

end MiniComite
